import Mathlib

/-!
Verification of the market-making strategy core (strategy.py).

Python `Decimal` values and venue prices are modelled as exact rationals.
Fallible computation (division) is modelled with `Option`: `none` stands
for a raised exception. Event handlers are modelled as functions from the
strategy state (the fields set in `__init__` and `on_start`) and their
external inputs to the updated state together with the list of order
actions they emit.
-/

namespace MarketMaking

/-- Decimal division: raises (`none`) on a zero divisor, as Python does. -/
def qdiv (a b : ℚ) : Option ℚ := if b = 0 then none else some (a / b)

/-- `MarketMakerConfig` from strategy.py lines 30-65: a frozen record of the
six configuration fields, with the default values of the source. The source
performs no value validation at construction. -/
structure MarketMakerConfig where
  instrument_id : String
  trade_size : ℚ
  spread_pct : ℚ := 1/100
  inventory_threshold : ℚ := 5
  quote_interval_seconds : ℤ := 30
  close_positions_on_stop : Bool := true
deriving Repr, DecidableEq

/-- `MarketMaker._calculate_skew` (strategy.py lines 269-311): returns 0 when
the threshold is 0, otherwise `min(abs(position) / threshold * 0.5, 0.5)`.
The division is the only fallible step. -/
def calculate_skew (inventory_threshold position : ℚ) : Option ℚ :=
  if inventory_threshold = 0 then some 0
  else (qdiv |position| inventory_threshold).map (fun position_ratio =>
    min (position_ratio * (1/2)) (1/2))

/-- The quote plan computed inside `MarketMaker._place_orders`
(strategy.py lines 230-259): skew fraction, the two clamped spreads and the
two limit prices of one cycle. -/
structure QuotePlan where
  skew_fraction : ℚ
  bid_spread : ℚ
  ask_spread : ℚ
  buy_price : ℚ
  sell_price : ℚ
deriving Repr, DecidableEq

/-- Steps 2-4 of `MarketMaker._place_orders` (strategy.py lines 233-259):
start from symmetric half spreads, reduce the ask side when long and the bid
side when short, clamp both at 0, and derive the limit prices from the mid. -/
def plan (cfg : MarketMakerConfig) (mid position : ℚ) : Option QuotePlan :=
  (calculate_skew cfg.inventory_threshold position).map (fun skew_fraction =>
    let half_spread := cfg.spread_pct / 2
    let bid_spread0 := half_spread
    let ask_spread0 := half_spread
    let bid_spread1 :=
      if position > 0 then bid_spread0
      else if position < 0 then bid_spread0 - half_spread * skew_fraction
      else bid_spread0
    let ask_spread1 :=
      if position > 0 then ask_spread0 - half_spread * skew_fraction
      else ask_spread0
    let bid_spread := max bid_spread1 0
    let ask_spread := max ask_spread1 0
    { skew_fraction := skew_fraction
      bid_spread := bid_spread
      ask_spread := ask_spread
      buy_price := mid * (1 - bid_spread)
      sell_price := mid * (1 + ask_spread) })

/-- `MarketMaker._get_position` (strategy.py lines 317-334): the cache query
yields the list of signed quantities of the open positions; an empty list
gives 0, otherwise the first entry is returned. -/
def get_position (positions_open : List ℚ) : ℚ :=
  match positions_open with
  | [] => 0
  | q :: _ => q

/-- The order actions an event handler can emit. -/
inductive Action where
  | cancelAllOrders : Action
  | submitBuy : ℚ → Action
  | submitSell : ℚ → Action
deriving Repr, DecidableEq

/-- The mutable fields of `MarketMaker`: whether `self.instrument` and
`self._book` are set, and `self._current_mid`. -/
structure StrategyState where
  instrument : Bool
  book : Bool
  current_mid : Option ℚ
deriving Repr, DecidableEq

/-- `MarketMaker.__init__` (strategy.py lines 116-119): instrument, book and
mid all unset. -/
def initState : StrategyState :=
  { instrument := false, book := false, current_mid := none }

/-- `MarketMaker.on_start` (strategy.py lines 125-159): when the cache lookup
finds the instrument, the instrument is stored and the order book is created;
otherwise the method returns after stopping, leaving both unset. The mid is
not touched. -/
def on_start (instrument_found : Bool) (s : StrategyState) : StrategyState :=
  if instrument_found then { s with instrument := true, book := true } else s

/-- Python truthiness of an optional numeric value: `None` and zero are
falsy, every other value is truthy. -/
def truthy : Option ℚ → Bool
  | none => false
  | some x => decide (x ≠ 0)

/-- `MarketMaker.on_order_book_deltas` (strategy.py lines 161-181): return at
once when the book is unset; otherwise read the post-delta best bid and ask
(the book reconstruction itself is external, so the two prices are the
inputs) and store `(bid + ask) / 2` as the mid when both are truthy, leaving
the mid unchanged otherwise. -/
def on_order_book_deltas (s : StrategyState) (best_bid best_ask : Option ℚ) :
    StrategyState :=
  if s.book = false then s
  else if truthy best_bid && truthy best_ask then
    { s with current_mid := some ((best_bid.getD 0 + best_ask.getD 0) / 2) }
  else s

/-- `MarketMaker._submit_buy` (strategy.py lines 336-349): no action when the
instrument is unset, else one buy limit order at the given price. -/
def submit_buy (instrument : Bool) (price : ℚ) : List Action :=
  if instrument then [Action.submitBuy price] else []

/-- `MarketMaker._submit_sell` (strategy.py lines 351-362). -/
def submit_sell (instrument : Bool) (price : ℚ) : List Action :=
  if instrument then [Action.submitSell price] else []

/-- `MarketMaker._place_orders` (strategy.py lines 218-263): read the mid,
compute the plan and submit the two orders. `none` models the exception that
a missing mid would raise here. -/
def place_orders (cfg : MarketMakerConfig) (s : StrategyState)
    (positions_open : List ℚ) : Option (List Action) := do
  let mid ← s.current_mid
  let qp ← plan cfg mid (get_position positions_open)
  some (submit_buy s.instrument qp.buy_price ++ submit_sell s.instrument qp.sell_price)

/-- `MarketMaker._on_quote_timer` (strategy.py lines 197-212): when the mid
is falsy (unset or zero) or the instrument is unset, return with no action;
otherwise cancel all orders and place the new pair. The handler writes no
strategy field, so the state is returned unchanged. -/
def on_quote_timer (cfg : MarketMakerConfig) (s : StrategyState)
    (positions_open : List ℚ) : Option (StrategyState × List Action) :=
  if truthy s.current_mid = false || s.instrument = false then some (s, [])
  else do
    let acts ← place_orders cfg s positions_open
    some (s, Action.cancelAllOrders :: acts)

/-- A sequence of timer ticks, each with the open-position list the cache
reports at that tick; the emitted actions are concatenated. -/
def run_ticks (cfg : MarketMakerConfig) :
    StrategyState → List (List ℚ) → Option (List Action)
  | _, [] => some []
  | s, ops :: rest => do
    let (s1, acts) ← on_quote_timer cfg s ops
    let acc ← run_ticks cfg s1 rest
    some (acts ++ acc)

/-- The value `_calculate_skew` returns on the non-raising path. -/
def skew_val (inventory_threshold position : ℚ) : ℚ :=
  if inventory_threshold = 0 then 0
  else min (|position| / inventory_threshold * (1/2)) (1/2)

/-- The bid-side spread of a cycle before the floor clamp. -/
def raw_bid_spread (cfg : MarketMakerConfig) (position : ℚ) : ℚ :=
  if position > 0 then cfg.spread_pct / 2
  else if position < 0 then
    cfg.spread_pct / 2 -
      cfg.spread_pct / 2 * skew_val cfg.inventory_threshold position
  else cfg.spread_pct / 2

/-- The ask-side spread of a cycle before the floor clamp. -/
def raw_ask_spread (cfg : MarketMakerConfig) (position : ℚ) : ℚ :=
  if position > 0 then
    cfg.spread_pct / 2 -
      cfg.spread_pct / 2 * skew_val cfg.inventory_threshold position
  else cfg.spread_pct / 2

/-- The quote plan in closed form. -/
def plan_val (cfg : MarketMakerConfig) (mid position : ℚ) : QuotePlan :=
  { skew_fraction := skew_val cfg.inventory_threshold position
    bid_spread := max (raw_bid_spread cfg position) 0
    ask_spread := max (raw_ask_spread cfg position) 0
    buy_price := mid * (1 - max (raw_bid_spread cfg position) 0)
    sell_price := mid * (1 + max (raw_ask_spread cfg position) 0) }

lemma calculate_skew_eq (t p : ℚ) :
    calculate_skew t p = some (skew_val t p) := by
  by_cases h : t = 0 <;> simp [calculate_skew, skew_val, qdiv, h]

lemma plan_eq (cfg : MarketMakerConfig) (m p : ℚ) :
    plan cfg m p = some (plan_val cfg m p) := by
  simp [plan, calculate_skew_eq, plan_val, raw_bid_spread, raw_ask_spread]

/-- The configuration of spec scenario C: spread 1%, threshold 5. -/
def sample_config : MarketMakerConfig :=
  { instrument_id := "BTC-USD", trade_size := 1/10,
    spread_pct := 1/100, inventory_threshold := 5 }

/-- C1 counterexample: with spread_pct = 0.01, inventory_threshold = 5,
mid = 100 and position = 5, the planned ask spread is 1/400 = 0.0025, not 0,
and the planned sell price is 401/4 = 100.25, not the mid 100. -/
theorem scenarioC_counterexample :
    (plan sample_config 100 5).map QuotePlan.ask_spread = some (1/400) ∧
    (plan sample_config 100 5).map QuotePlan.sell_price = some (401/4) ∧
    ((401 : ℚ)/4) ≠ 100 := by
  rw [plan_eq]
  refine ⟨?_, ?_, by norm_num⟩ <;>
    · simp [plan_val, raw_ask_spread, skew_val, sample_config]
      norm_num

/-- C1 amended: with spread_pct = 0.01, inventory_threshold = 5, mid = 100
and position = 5 (at the threshold), the quote cycle computes skew = 0.5,
ask spread = half_spread * (1 - skew) = 0.0025, and submits a buy at 99.5 and
a sell at 100.25: the tightened ask spread is half of the half spread, never
zero. -/
theorem scenarioC_amended :
    on_quote_timer sample_config ⟨true, true, some 100⟩ [5] =
      some (⟨true, true, some 100⟩,
        [Action.cancelAllOrders, Action.submitBuy (199/2),
         Action.submitSell (401/4)]) ∧
    (plan sample_config 100 5).map QuotePlan.skew_fraction = some (1/2) := by
  constructor
  · simp [on_quote_timer, truthy, place_orders, plan_eq, get_position,
      submit_buy, submit_sell, plan_val, raw_bid_spread, raw_ask_spread,
      skew_val, sample_config]
    norm_num
  · rw [plan_eq]
    simp [plan_val, skew_val, sample_config]

/-- C2 counterexample: constructing the configuration with
trade_size = -1 succeeds and stores the non-positive value, so construction
does not reject non-positive numeric fields. -/
theorem config_positivity_counterexample :
    (MarketMakerConfig.mk "BTCUSDT-LINEAR.BYBIT" (-1) (1/100) 5 30 true).trade_size
      = -1 ∧
    ¬ (0 < (MarketMakerConfig.mk "BTCUSDT-LINEAR.BYBIT" (-1) (1/100) 5 30
        true).trade_size) := by
  refine ⟨rfl, ?_⟩
  norm_num

/-- C2 amended: the configuration constructor performs no positivity
validation: it succeeds for every combination of field values, including
non-positive numeric ones, and stores each field unchanged. -/
theorem config_construction_total (iid : String) (ts sp it : ℚ) (qi : ℤ)
    (cs : Bool) :
    (MarketMakerConfig.mk iid ts sp it qi cs).trade_size = ts ∧
    (MarketMakerConfig.mk iid ts sp it qi cs).spread_pct = sp ∧
    (MarketMakerConfig.mk iid ts sp it qi cs).inventory_threshold = it ∧
    (MarketMakerConfig.mk iid ts sp it qi cs).quote_interval_seconds = qi :=
  ⟨rfl, rfl, rfl, rfl⟩

/-- C5: with inventory_threshold = 0 the skew calculation returns exactly 0
on the non-raising path (`some`), for every position: the zero check guards
the division, so no division error is possible. -/
theorem skew_zero_threshold (p : ℚ) : calculate_skew 0 p = some 0 := by
  simp [calculate_skew]

/-- C10: the position query returns 0 when the cache reports no open
positions, and the signed quantity of the first reported position otherwise,
ignoring the rest of the list. -/
theorem position_first_or_zero :
    get_position [] = 0 ∧ ∀ (q : ℚ) (rest : List ℚ),
      get_position (q :: rest) = q :=
  ⟨rfl, fun _ _ => rfl⟩

/-- C9: when the stored mid is exactly 0 (falsy in Python) or the instrument
is unset, a timer tick returns before cancelling or submitting anything: the
state is unchanged and no action is emitted. -/
theorem zero_mid_skips_cycle (cfg : MarketMakerConfig) (s : StrategyState)
    (ops : List ℚ) (h : s.current_mid = some 0 ∨ s.instrument = false) :
    on_quote_timer cfg s ops = some (s, []) := by
  rcases h with h | h <;> simp [on_quote_timer, truthy, h]

/-- C9 witness: a tick at mid = 0 with the instrument set emits nothing. -/
theorem zero_mid_skips_cycle_witness :
    on_quote_timer sample_config ⟨true, true, some 0⟩ [] =
      some (⟨true, true, some 0⟩, []) :=
  zero_mid_skips_cycle sample_config ⟨true, true, some 0⟩ [] (Or.inl rfl)

/-- C7: after a book update with both best prices present (positive, as
venue quotes are), the stored mid becomes `(bid + ask) / 2`; after an update
in which at least one side is absent, the whole state, in particular a
previously stored mid, is unchanged. -/
theorem mid_update_and_frame (s : StrategyState) (hb : s.book = true)
    (b a : ℚ) (hbp : 0 < b) (hap : 0 < a) :
    (on_order_book_deltas s (some b) (some a)).current_mid =
      some ((b + a) / 2) ∧
    ∀ (s2 : StrategyState) (bid ask : Option ℚ), bid = none ∨ ask = none →
      on_order_book_deltas s2 bid ask = s2 := by
  constructor
  · simp [on_order_book_deltas, truthy, hb, hbp.ne', hap.ne']
  · intro s2 bid ask h
    rcases h with h | h <;> subst h <;>
      simp [on_order_book_deltas, truthy]

/-- C7 witness: bid 99 and ask 101 give mid 100; clearing the bid side
leaves a stored mid of 100 in place. -/
theorem mid_update_and_frame_witness :
    (on_order_book_deltas ⟨true, true, none⟩ (some 99) (some 101)).current_mid
      = some 100 ∧
    on_order_book_deltas ⟨true, true, some 100⟩ none (some 101) =
      ⟨true, true, some 100⟩ := by
  constructor
  · have h := (mid_update_and_frame ⟨true, true, none⟩ rfl 99 101
      (by norm_num) (by norm_num)).1
    norm_num at h
    exact h
  · exact (mid_update_and_frame ⟨true, true, none⟩ rfl 99 101
      (by norm_num) (by norm_num)).2 _ none (some 101) (Or.inl rfl)

lemma on_quote_timer_none_mid (cfg : MarketMakerConfig) (s : StrategyState)
    (ops : List ℚ) (h : s.current_mid = none) :
    on_quote_timer cfg s ops = some (s, []) := by
  simp [on_quote_timer, truthy, h]

lemma run_ticks_none_mid (cfg : MarketMakerConfig) (s : StrategyState)
    (h : s.current_mid = none) :
    ∀ ticks : List (List ℚ), run_ticks cfg s ticks = some [] := by
  intro ticks
  induction ticks with
  | nil => rfl
  | cons ops rest ih => simp [run_ticks, on_quote_timer_none_mid cfg s ops h, ih]

/-- C8: a timer tick in any state with no stored mid emits no action and
leaves the state unchanged, and a strategy that never receives book data
(its mid stays unset after start) emits no action over any sequence of
ticks. -/
theorem no_mid_no_orders (cfg : MarketMakerConfig) :
    (∀ (s : StrategyState) (ops : List ℚ), s.current_mid = none →
      on_quote_timer cfg s ops = some (s, [])) ∧
    (∀ (instrument_found : Bool) (ticks : List (List ℚ)),
      run_ticks cfg (on_start instrument_found initState) ticks = some []) := by
  refine ⟨fun s ops h => on_quote_timer_none_mid cfg s ops h,
    fun f ticks => run_ticks_none_mid cfg _ ?_ ticks⟩
  cases f <;> rfl

/-- C8 witness: one tick with no mid emits nothing. -/
theorem no_mid_no_orders_witness :
    on_quote_timer sample_config ⟨true, true, none⟩ [] =
      some (⟨true, true, none⟩, []) :=
  (no_mid_no_orders sample_config).1 ⟨true, true, none⟩ [] rfl

/-- C3: for every positive mid, every position and every config, the planned
quote pair brackets the mid and both clamped spreads are non-negative. -/
theorem plan_brackets_mid (cfg : MarketMakerConfig) (m p : ℚ) (hm : 0 < m) :
    ∃ qp : QuotePlan, plan cfg m p = some qp ∧
      qp.buy_price ≤ m ∧ m ≤ qp.sell_price ∧
      0 ≤ qp.bid_spread ∧ 0 ≤ qp.ask_spread := by
  refine ⟨plan_val cfg m p, plan_eq cfg m p, ?_, ?_,
    le_max_right _ _, le_max_right _ _⟩
  · show m * (1 - max (raw_bid_spread cfg p) 0) ≤ m
    have hb : (0:ℚ) ≤ max (raw_bid_spread cfg p) 0 := le_max_right _ _
    nlinarith [mul_nonneg hm.le hb]
  · show m ≤ m * (1 + max (raw_ask_spread cfg p) 0)
    have ha : (0:ℚ) ≤ max (raw_ask_spread cfg p) 0 := le_max_right _ _
    nlinarith [mul_nonneg hm.le ha]

/-- C3 witness at mid 100, position 2.5, the sample config. -/
theorem plan_brackets_mid_witness :
    0 < (100:ℚ) ∧ ∃ qp : QuotePlan,
      plan sample_config 100 (5/2) = some qp ∧
      qp.buy_price ≤ 100 ∧ 100 ≤ qp.sell_price ∧
      0 ≤ qp.bid_spread ∧ 0 ≤ qp.ask_spread :=
  ⟨by norm_num, plan_brackets_mid sample_config 100 (5/2) (by norm_num)⟩

/-- C4: for every position and positive threshold the skew fraction is
returned without error, lies in [0, 1/2], is non-decreasing in the absolute
position, equals 1/2 once the absolute position reaches the threshold, and
is invariant under flipping the sign of the position. -/
theorem skew_fraction_props (t : ℚ) (ht : 0 < t) (p : ℚ) :
    ∃ s : ℚ, calculate_skew t p = some s ∧ 0 ≤ s ∧ s ≤ 1/2 ∧
      (∀ q r : ℚ, |p| ≤ |q| → calculate_skew t q = some r → s ≤ r) ∧
      (t ≤ |p| → s = 1/2) ∧
      calculate_skew t (-p) = some s := by
  have hne : t ≠ 0 := ht.ne'
  refine ⟨skew_val t p, calculate_skew_eq t p, ?_, ?_, ?_, ?_, ?_⟩
  · rw [skew_val, if_neg hne]
    have h1 : (0:ℚ) ≤ |p| / t * (1/2) := by positivity
    exact le_min h1 (by norm_num)
  · rw [skew_val, if_neg hne]
    exact min_le_right _ _
  · intro q r hpq hq
    rw [calculate_skew_eq] at hq
    injection hq with hq
    subst hq
    rw [skew_val, if_neg hne, skew_val, if_neg hne]
    refine min_le_min ?_ le_rfl
    have h2 : |p| / t ≤ |q| / t := by gcongr
    nlinarith
  · intro hsat
    rw [skew_val, if_neg hne]
    have h1 : (1:ℚ) ≤ |p| / t := (one_le_div ht).mpr hsat
    have h2 : (1:ℚ)/2 ≤ |p| / t * (1/2) := by nlinarith
    exact min_eq_right h2
  · rw [calculate_skew_eq]
    simp [skew_val, abs_neg]

/-- C4 witness at threshold 5, position 2.5. -/
theorem skew_fraction_props_witness :
    0 < (5:ℚ) ∧ ∃ s : ℚ, calculate_skew 5 (5/2) = some s ∧ 0 ≤ s ∧ s ≤ 1/2 ∧
      (∀ q r : ℚ, |(5:ℚ)/2| ≤ |q| → calculate_skew 5 q = some r → s ≤ r) ∧
      ((5:ℚ) ≤ |(5:ℚ)/2| → s = 1/2) ∧
      calculate_skew 5 (-(5/2)) = some s :=
  ⟨by norm_num, skew_fraction_props 5 (by norm_num) (5/2)⟩

/-- C6: for the same magnitude, a long and a short position are mirror
images: the ask spread when long equals the bid spread when short, the
untightened side keeps exactly half the configured spread, and a flat
position keeps both sides at half the configured spread. -/
theorem plan_symmetry (cfg : MarketMakerConfig) (m x : ℚ) (hx : 0 < x)
    (hsp : 0 ≤ cfg.spread_pct) :
    ∃ qpP qpN qp0 : QuotePlan,
      plan cfg m x = some qpP ∧ plan cfg m (-x) = some qpN ∧
      plan cfg m 0 = some qp0 ∧
      qpP.ask_spread = qpN.bid_spread ∧
      qpP.bid_spread = cfg.spread_pct / 2 ∧
      qpN.ask_spread = cfg.spread_pct / 2 ∧
      qp0.bid_spread = cfg.spread_pct / 2 ∧
      qp0.ask_spread = cfg.spread_pct / 2 := by
  have hhalf : (0:ℚ) ≤ cfg.spread_pct / 2 := by linarith
  have hxneg : -x < 0 := by linarith
  have hnxnotpos : ¬ ((0:ℚ) < -x) := by linarith
  refine ⟨plan_val cfg m x, plan_val cfg m (-x), plan_val cfg m 0,
    plan_eq cfg m x, plan_eq cfg m (-x), plan_eq cfg m 0,
    ?_, ?_, ?_, ?_, ?_⟩
  · show max (raw_ask_spread cfg x) 0 = max (raw_bid_spread cfg (-x)) 0
    simp [raw_ask_spread, raw_bid_spread, skew_val, hx, hxneg, hnxnotpos,
      abs_neg]
  · show max (raw_bid_spread cfg x) 0 = cfg.spread_pct / 2
    simp [raw_bid_spread, hx, max_eq_left hhalf]
  · show max (raw_ask_spread cfg (-x)) 0 = cfg.spread_pct / 2
    simp [raw_ask_spread, hnxnotpos, max_eq_left hhalf]
  · show max (raw_bid_spread cfg 0) 0 = cfg.spread_pct / 2
    simp [raw_bid_spread, lt_irrefl, max_eq_left hhalf]
  · show max (raw_ask_spread cfg 0) 0 = cfg.spread_pct / 2
    simp [raw_ask_spread, lt_irrefl, max_eq_left hhalf]

/-- C6 witness at mid 100, magnitude 2.5, the sample config. -/
theorem plan_symmetry_witness :
    0 < ((5:ℚ)/2) ∧ 0 ≤ sample_config.spread_pct ∧
    ∃ qpP qpN qp0 : QuotePlan,
      plan sample_config 100 (5/2) = some qpP ∧
      plan sample_config 100 (-(5/2)) = some qpN ∧
      plan sample_config 100 0 = some qp0 ∧
      qpP.ask_spread = qpN.bid_spread ∧
      qpP.bid_spread = sample_config.spread_pct / 2 ∧
      qpN.ask_spread = sample_config.spread_pct / 2 ∧
      qp0.bid_spread = sample_config.spread_pct / 2 ∧
      qp0.ask_spread = sample_config.spread_pct / 2 :=
  ⟨by norm_num, by norm_num [sample_config],
    plan_symmetry sample_config 100 (5/2) (by norm_num)
      (by norm_num [sample_config])⟩

end MarketMaking
